import Mathlib

/-!
Verification of the incident-command core of aegis-command-ai: the
geospatial responder matcher (`find_nearby_helpers`, SQL, migration
part_013), the incident lifecycle handlers (`IncidentDetailPanel.tsx`),
the status-change audit trigger (`log_incident_status_change`), and the
three alert-generation edge functions (`send-whatsapp-alert`,
`send-sms-alert`, `trigger-emergency-alerts`) together with the
`analyze-incident` AI-gateway glue.  Each definition is a shallow
embedding of the corresponding source function; coordinates and radii are
modelled over a linear ordered field (instantiated at `ℝ` for statements
about the great-circle distance and at `ℚ` for executable checks).
-/

namespace Aegis

/-- Helper roles (`CREATE TYPE helper_role AS ENUM`, migration
`20260114061402`). -/
inductive HelperRole where
  | security
  | medical
  | volunteer
deriving DecidableEq, Repr

/-- Incident status (`types/incident.ts`). -/
inductive IncidentStatus where
  | active
  | resolved
  | escalated
deriving DecidableEq, Repr

/-- Incident type (`types/incident.ts`). -/
inductive IncidentType where
  | medical
  | fire
  | security
  | infrastructure
deriving DecidableEq, Repr

/-- Incident severity (`types/incident.ts`). -/
inductive IncidentSeverity where
  | low
  | medium
  | high
  | critical
deriving DecidableEq, Repr

/-- A responder row of the `helpers` table (migration `20260114061402`).
The coordinate type `α` is `ℝ` in the statements about the SQL function and
`ℚ` in executable checks; `double precision` columns are idealised as exact
field elements. -/
structure Helper (α : Type) where
  id : String
  name : String
  mobile_number : String
  role : HelperRole
  latitude : α
  longitude : α
  is_active : Bool
deriving DecidableEq, Repr

/-- `radians(x)` of PostgreSQL: degrees to radians. -/
noncomputable def radians (x : ℝ) : ℝ := x * Real.pi / 180

/-- The `distance_km` expression of `find_nearby_helpers`
(src/unnamed/part_013 lines 45-49): `6371 * acos(cos(radians(lat1)) *
cos(radians(lat2)) * cos(radians(lng2) - radians(lng1)) +
sin(radians(lat1)) * sin(radians(lat2)))`. -/
noncomputable def distance_km (incident_lat incident_lng hlat hlng : ℝ) : ℝ :=
  6371 * Real.arccos
    (Real.cos (radians incident_lat) * Real.cos (radians hlat) *
      Real.cos (radians hlng - radians incident_lng) +
      Real.sin (radians incident_lat) * Real.sin (radians hlat))

/-- The `RETURN QUERY` body of `find_nearby_helpers` (src/unnamed/part_013
lines 36-57): keep the `is_active` helpers whose distance is at most
`radius_km`, pair each with its distance, and order by distance ascending.
The distance expression is a parameter so the same embedding serves the
real-valued instantiation (`distance_km`) and executable rational checks. -/
def find_nearby_rows {α : Type} [LinearOrder α] (dist : α → α → α → α → α)
    (incident_lat incident_lng radius_km : α) (hs : List (Helper α)) :
    List (Helper α × α) :=
  List.insertionSort (fun p q => p.2 ≤ q.2)
    ((hs.filter (fun h => h.is_active)).filterMap
      (fun h =>
        if dist incident_lat incident_lng h.latitude h.longitude ≤ radius_km then
          some (h, dist incident_lat incident_lng h.latitude h.longitude)
        else none))

/-- Errors surfaced by the boundary operations (HTTP 403 / 400 / 404 and
the SQL `insufficient_privilege` raise). -/
inductive ApiError where
  | authorizationError
  | validationError
  | notFoundError
deriving DecidableEq, Repr

/-- `find_nearby_helpers` (src/unnamed/part_013 lines 23-58): raise
`insufficient_privilege` unless the caller holds the admin role, otherwise
run the distance query.  `isAdmin` models `has_role(auth.uid(), 'admin')`. -/
def find_nearby_helpers {α : Type} [LinearOrder α] (isAdmin : Bool)
    (dist : α → α → α → α → α) (incident_lat incident_lng radius_km : α)
    (hs : List (Helper α)) : Except ApiError (List (Helper α × α)) :=
  if isAdmin then
    Except.ok (find_nearby_rows dist incident_lat incident_lng radius_km hs)
  else
    Except.error ApiError.authorizationError

/-- `validatedRadiusKm = Math.min(Math.max(radiusKm, 0.1), 50)`
(trigger-emergency-alerts/index.ts line 116). -/
def validatedRadiusKm {α : Type} [LinearOrderedField α] (radiusKm : α) : α :=
  min (max radiusKm (1 / 10)) 50

/-- The helper query as the bulk-alert edge function performs it
(trigger-emergency-alerts/index.ts lines 116 and 142-147): the
caller-supplied radius is clamped, then passed to `find_nearby_helpers`. -/
noncomputable def triggerFindNearby (incident_lat incident_lng radiusKm : ℝ)
    (hs : List (Helper ℝ)) : List (Helper ℝ × ℝ) :=
  find_nearby_rows distance_km incident_lat incident_lng
    (validatedRadiusKm radiusKm) hs

/-- JSON values, as `JSON.parse` produces them and as `jsonb` columns store
them.  Used for the parsed AI-gateway content and the persisted
`ai_analysis` record. -/
inductive Js where
  | null : Js
  | bool : Bool → Js
  | num : ℚ → Js
  | str : String → Js
  | arr : List Js → Js
  | obj : List (String × Js) → Js

/-- JavaScript property read `v.k`: `none` models `undefined` (missing key
or non-object receiver). -/
def jsField (v : Js) (k : String) : Option Js :=
  match v with
  | Js.obj fields => fields.lookup k
  | _ => none

/-- Key update inside an object's field list: replace the first binding of
`k`, or append one. -/
def setKV (fields : List (String × Js)) (k : String) (v : Js) :
    List (String × Js) :=
  match fields with
  | [] => [(k, v)]
  | (k', v') :: rest =>
      if k' == k then (k, v) :: rest else (k', v') :: setKV rest k v

/-- JavaScript property write `o.k = v` (a no-op on non-objects, which the
analyzed code never reaches). -/
def jsSetField (o : Js) (k : String) (v : Js) : Js :=
  match o with
  | Js.obj fields => Js.obj (setKV fields k v)
  | _ => o

/-- The fallback analysis object of analyze-incident
(src/unnamed/part_010 lines 199-211). -/
def fallbackAnalysisJs : Js :=
  Js.obj
    [("severity", Js.str "medium"),
     ("immediateActions",
       Js.arr
         [Js.str "Dispatch nearest available responder to the location",
          Js.str "Secure the immediate area",
          Js.str "Gather additional information from witnesses"]),
     ("resourceRecommendations",
       Js.arr [Js.str "Security personnel", Js.str "First aid kit if needed"]),
     ("reasoning",
       Js.str "Unable to fully analyze. Defaulting to medium priority for assessment.")]

/-- `validSeverities` (part_010 line 216 and trigger-emergency-alerts
line 119). -/
def validSeverities : List String := ["low", "medium", "high", "critical"]

/-- A runtime exception of the edge function (caught by the outer
`try`/`catch`, which answers HTTP 500 and persists nothing). -/
inductive RuntimeFailure where
  | typeError
deriving DecidableEq, Repr

/-- JavaScript `String.prototype.toLowerCase` for the basic latin range,
applied characterwise. -/
def jsLower (s : String) : String := String.mk (s.data.map Char.toLower)

/-- analyze-incident after the gateway reply (src/unnamed/part_010 lines
189-249).  `parsed = none` models `JSON.parse` throwing on the
fence-stripped content, in which case the fallback analysis is substituted
(lines 196-212); otherwise `parsed = some v` is the parsed value, cast
unchecked to the analysis shape.  Then `analysis.severity.toLowerCase()`
runs (line 215) — a `TypeError` escapes to the outer catch when `severity`
is not a string — the severity is normalised (lines 216-220), and the pair
`(finalSeverity, analysis)` is what the service-role `PATCH` persists
(lines 236-239). -/
def analyzeAfterParse (parsed : Option Js) :
    Except RuntimeFailure (String × Js) :=
  let analysis := match parsed with
    | none => fallbackAnalysisJs
    | some v => v
  match jsField analysis "severity" with
  | some (Js.str s) =>
      let normalized := jsLower s
      let finalSeverity :=
        if validSeverities.contains normalized then normalized else "medium"
      Except.ok (finalSeverity, jsSetField analysis "severity" (Js.str finalSeverity))
  | _ => Except.error RuntimeFailure.typeError

/-- The authenticated caller as `useAuth` exposes it: `user.id`,
`user.email` and the resolved role string (`'admin'` for admins). -/
structure Actor where
  id : String
  email : String
  role : String
deriving DecidableEq, Repr

/-- An `incidents` row (`types/incident.ts`). -/
structure Incident where
  id : String
  type : IncidentType
  description : String
  latitude : ℚ
  longitude : ℚ
  location_name : Option String
  status : IncidentStatus
  severity : Option IncidentSeverity
  ai_analysis : Option Js
  reported_by : Option String
  resolved_by : Option String
  resolved_at : Option String
  created_at : String
  updated_at : String

/-- `canModify` (IncidentDetailPanel.tsx line 51): the actor is the
reporter or an admin. -/
def canModify (a : Actor) (i : Incident) : Bool :=
  i.reported_by == some a.id || a.role == "admin"

/-- An `audit_logs` row (migration `20260109054629`); `metadata` is the
flattened key/value record of the inserted `jsonb`. -/
structure AuditLogEntry where
  action : String
  incident_id : Option String
  actor_id : Option String
  actor_email : Option String
  metadata : List (String × String)
deriving DecidableEq, Repr

/-- The status enum's storage text. -/
def statusText (s : IncidentStatus) : String :=
  match s with
  | IncidentStatus.active => "active"
  | IncidentStatus.resolved => "resolved"
  | IncidentStatus.escalated => "escalated"

/-- `log_incident_status_change` (src/unnamed/part_013 lines 77-108): the
`AFTER UPDATE` trigger inserts one `incident_status_changed` entry exactly
when `OLD.status IS DISTINCT FROM NEW.status`, with actor
`COALESCE(NEW.resolved_by, auth.uid())` and the old/new statuses (plus the
trigger's clock) as metadata. -/
def log_incident_status_change (old new_ : Incident) (uid : String)
    (now : String) : List AuditLogEntry :=
  if old.status ≠ new_.status then
    [{ action := "incident_status_changed",
       incident_id := some new_.id,
       actor_id := some (new_.resolved_by.getD uid),
       actor_email := none,
       metadata :=
         [("old_status", statusText old.status),
          ("new_status", statusText new_.status),
          ("changed_at", now)] }]
  else []

/-- The `UPDATE` row-level-security predicate on `incidents`
(src/unnamed/part_013 lines 8-14): `auth.uid() = reported_by OR
has_role(auth.uid(), 'admin')`. -/
def rlsCanUpdate (uid : String) (isAdmin : Bool) (i : Incident) : Bool :=
  i.reported_by == some uid || isAdmin

/-- One `UPDATE ... WHERE id = i.id` against the `incidents` table: the
row-level-security predicate filters the row (an unauthorized update
matches no rows and changes nothing), and on a real update the
`audit_incident_status_changes` trigger fires.  Returns the stored row and
the audit entries the statement inserted. -/
def incidentsUpdate (uid : String) (isAdmin : Bool) (now : String)
    (i : Incident) (u : Incident → Incident) : Incident × List AuditLogEntry :=
  if rlsCanUpdate uid isAdmin i then
    (u i, log_incident_status_change i (u i) uid now)
  else (i, [])

/-- The column values `handleResolve` writes (IncidentDetailPanel.tsx
lines 96-103): `status = 'resolved'`, `resolved_by = user.id`,
`resolved_at = now` in the same update. -/
def resolveUpdate (uid : String) (now : String) (i : Incident) : Incident :=
  { i with status := IncidentStatus.resolved,
           resolved_by := some uid,
           resolved_at := some now }

/-- The explicit `incident_resolved` audit insert after a successful
resolve (IncidentDetailPanel.tsx lines 115-124). -/
def resolvedEntry (a : Actor) (old : Incident) : AuditLogEntry :=
  { action := "incident_resolved",
    incident_id := some old.id,
    actor_id := some a.id,
    actor_email := some a.email,
    metadata :=
      [("previous_status", statusText old.status),
       ("new_status", "resolved")] }

/-- The explicit `incident_escalated` audit insert after a successful
escalate (IncidentDetailPanel.tsx lines 161-170). -/
def escalatedEntry (a : Actor) (old : Incident) : AuditLogEntry :=
  { action := "incident_escalated",
    incident_id := some old.id,
    actor_id := some a.id,
    actor_email := some a.email,
    metadata :=
      [("previous_status", statusText old.status),
       ("new_status", "escalated")] }

/-- `handleResolve` (IncidentDetailPanel.tsx lines 85-133): refuse with
"Access Denied" unless `canModify`, else issue the resolve update (through
row-level security and the status-change trigger) and then insert the
explicit `incident_resolved` entry.  Returns the stored incident, the
audit entries written, and the error shown if any. -/
def handleResolve (a : Actor) (now : String) (i : Incident) :
    Incident × List AuditLogEntry × Option ApiError :=
  if canModify a i then
    let step := incidentsUpdate a.id (a.role == "admin") now i
      (resolveUpdate a.id now)
    (step.1, step.2 ++ [resolvedEntry a i], none)
  else (i, [], some ApiError.authorizationError)

/-- `handleEscalate` (IncidentDetailPanel.tsx lines 135-178): refuse
unless `canModify`, else update only `status` to `'escalated'` and insert
the explicit `incident_escalated` entry. -/
def handleEscalate (a : Actor) (now : String) (i : Incident) :
    Incident × List AuditLogEntry × Option ApiError :=
  if canModify a i then
    let step := incidentsUpdate a.id (a.role == "admin") now i
      (fun j => { j with status := IncidentStatus.escalated })
    (step.1, step.2 ++ [escalatedEntry a i], none)
  else (i, [], some ApiError.authorizationError)

/-- The AI-gateway write-back (src/unnamed/part_010 lines 226-241): a
service-role `PATCH` setting exactly `severity` and `ai_analysis`. -/
def aiWriteBack (sev : IncidentSeverity) (an : Js) (i : Incident) : Incident :=
  { i with severity := some sev, ai_analysis := some an }

/-- Modelled from the spec: the `incidents` table definition (the DDL
fixing the defaults of the columns the report insert omits) is not among
the repository files, so those defaults follow §3 of the spec —
`status = active`, `severity` and `ai_analysis` null until analysed,
`resolved_by`/`resolved_at` null.  The supplied fields are the report
form's insert payload (ReportIncidentDialog.tsx lines 145-156): type,
description, coordinates, optional location name and `reported_by`. -/
def createIncident (newId : String) (ty : IncidentType) (descr : String)
    (lat lng : ℚ) (locName : Option String) (uid : String) (t : String) :
    Incident :=
  { id := newId, type := ty, description := descr,
    latitude := lat, longitude := lng, location_name := locName,
    status := IncidentStatus.active, severity := none, ai_analysis := none,
    reported_by := some uid, resolved_by := none, resolved_at := none,
    created_at := t, updated_at := t }

/-- The incident states reachable through the application's operations:
creation via the report dialog, resolve and escalate via
`IncidentDetailPanel` — whose buttons render only while
`incident.status === 'active' && canModify` (IncidentDetailPanel.tsx line
342) — and the AI-gateway write-back. -/
inductive ReachableIncident : Incident → Prop where
  | created (newId : String) (ty : IncidentType) (descr : String)
      (lat lng : ℚ) (locName : Option String) (uid : String) (t : String) :
      ReachableIncident (createIncident newId ty descr lat lng locName uid t)
  | resolvedStep (a : Actor) (now : String) (i : Incident) :
      ReachableIncident i → canModify a i = true →
      i.status = IncidentStatus.active →
      ReachableIncident (handleResolve a now i).1
  | escalatedStep (a : Actor) (now : String) (i : Incident) :
      ReachableIncident i → canModify a i = true →
      i.status = IncidentStatus.active →
      ReachableIncident (handleEscalate a now i).1
  | aiStep (sev : IncidentSeverity) (an : Js) (i : Incident) :
      ReachableIncident i → ReachableIncident (aiWriteBack sev an i)

/-- A control character of the sanitizer regex `[\x00-\x1F\x7F]`. -/
def isCtl (c : Char) : Bool := c.toNat ≤ 31 || c.toNat == 127

/-- `.replace(/[\x00-\x1F\x7F]/g, '')`: drop the control characters. -/
def stripCtl (s : String) : String :=
  String.mk (s.data.filter (fun c => !isCtl c))

/-- JavaScript `s.substring(0, n)`. -/
def jsTake (s : String) (n : ℕ) : String := String.mk (s.data.take n)

/-- JavaScript `String.prototype.toUpperCase` for the basic latin range,
applied characterwise. -/
def jsUpper (s : String) : String := String.mk (s.data.map Char.toUpper)

/-- The character class `[0-9]` of the regexes `\d` and `\D`. -/
def isDigitJs (c : Char) : Bool := decide (48 ≤ c.toNat ∧ c.toNat ≤ 57)

/-- `.replace(/\D/g, '')`: keep only the decimal digits. -/
def cleanDigits (s : String) : String :=
  String.mk (s.data.filter isDigitJs)

/-- JavaScript `a || b` on strings: the empty string is falsy. -/
def jsOrStr (s t : String) : String := if s == "" then t else s

/-- JavaScript `a || b` where `a` may be `undefined`. -/
def jsOrOpt (o : Option String) (t : String) : String :=
  match o with
  | some s => jsOrStr s t
  | none => t

/-- `s.charAt(0).toUpperCase() + s.slice(1)`. -/
def capitalizeJs (s : String) : String :=
  match s.data with
  | [] => ""
  | c :: rest => String.mk (Char.toUpper c :: rest)

/-- A hexadecimal digit of the case-insensitive UUID pattern. -/
def isHexChar (c : Char) : Bool :=
  isDigitJs c || ('a' ≤ c && c ≤ 'f') || ('A' ≤ c && c ≤ 'F')

/-- The `uuidRegex` test `/^[0-9a-f]{8}-[0-9a-f]{4}-[0-9a-f]{4}-[0-9a-f]{4}-[0-9a-f]{12}$/i`:
36 characters, hyphens at offsets 8, 13, 18 and 23, hex digits elsewhere. -/
def isUuid (s : String) : Bool :=
  s.data.length == 36 &&
    s.data.enum.all (fun p =>
      if p.1 == 8 || p.1 == 13 || p.1 == 18 || p.1 == 23 then p.2 == '-'
      else isHexChar p.2)

/-- Decimal digits of a natural number, most significant first. -/
def natChars (n : ℕ) : List Char :=
  if _h : n < 10 then [Nat.digitChar n]
  else natChars (n / 10) ++ [Nat.digitChar (n % 10)]
decreasing_by omega

/-- Decimal rendering of an integer. -/
def intStr (i : ℤ) : String :=
  if i < 0 then "-" ++ String.mk (natChars i.natAbs)
  else String.mk (natChars i.natAbs)

/-- Rendering of a JavaScript number interpolated into a template string.
The TypeScript values are IEEE doubles; the model renders the idealised
rational exactly — identical to JavaScript on the integral values the
concrete checks use, and in every case a string of sign, digit and
separator characters. -/
def numStr (q : ℚ) : String :=
  if q.den == 1 then intStr q.num
  else intStr q.num ++ "/" ++ String.mk (natChars q.den)

/-- The single-alert request body of send-whatsapp-alert/index.ts. -/
structure WhatsAppAlertRequest where
  incidentId : String
  helperId : String
  helperName : String
  helperMobile : String
  incidentType : String
  severity : String
  description : String
  latitude : ℚ
  longitude : ℚ
  locationName : Option String
deriving DecidableEq, Repr

/-- The validation of send-whatsapp-alert/index.ts lines 85-99: the
required fields are truthy and the mobile number keeps at least 10 digits
once non-digits are stripped. -/
def whatsappValidate (r : WhatsAppAlertRequest) : Bool :=
  !(r.incidentId == "") && !(r.helperId == "") && !(r.helperMobile == "") &&
    !((cleanDigits r.helperMobile).length < 10)

/-- `mapsLink` of send-whatsapp-alert/index.ts line 102. -/
def whatsappMapsLink (r : WhatsAppAlertRequest) : String :=
  "https://www.google.com/maps?q=" ++ numStr r.latitude ++ "," ++
    numStr r.longitude

/-- The alert text of send-whatsapp-alert/index.ts lines 105-112 — the
string handed to `encodeURIComponent` and carried by the `wa.me` deep
link, i.e. the message the responder receives. -/
def whatsappMessageBody (r : WhatsAppAlertRequest) : String :=
  "🚨 EMERGENCY ALERT - " ++ jsUpper r.incidentType ++ "\n\n" ++
    "Severity: " ++ jsOrStr (jsUpper r.severity) "UNKNOWN" ++ "\n" ++
    "Location: " ++ jsOrOpt r.locationName "Unknown location" ++ "\n\n" ++
    jsTake r.description 150 ++
    (if 150 < r.description.length then "..." else "") ++ "\n\n" ++
    "📍 Location: " ++ whatsappMapsLink r ++ "\n\n" ++
    "Please respond immediately if available."

/-- send-whatsapp-alert/index.ts: admin gate (lines 62-75), validation
(85-99), message construction (102-115), then exactly one
`whatsapp_alert_generated` audit insert (117-132) whose metadata carries
no phone field, and the success response. -/
def whatsappAlert (uid email : String) (isAdmin : Bool)
    (r : WhatsAppAlertRequest) : Except ApiError (String × List AuditLogEntry) :=
  if !isAdmin then Except.error ApiError.authorizationError
  else if !whatsappValidate r then Except.error ApiError.validationError
  else
    Except.ok (whatsappMessageBody r,
      [{ action := "whatsapp_alert_generated",
         incident_id := some r.incidentId,
         actor_id := some uid,
         actor_email := some email,
         metadata :=
           [("helper_id", r.helperId),
            ("helper_name", r.helperName),
            ("alert_type", "whatsapp_deep_link"),
            ("severity", r.severity),
            ("incident_type", r.incidentType)] }])

/-- The single-alert request body of the send-sms-alert handler
(src/unnamed/part_010 lines 272-282, `SmsAlertRequest`). -/
structure SmsAlertRequest where
  incidentId : String
  incidentType : String
  severity : String
  description : String
  latitude : ℚ
  longitude : ℚ
  helperName : String
  helperPhone : String
  helperId : String
deriving DecidableEq, Repr

/-- The validation of the send-sms-alert handler (src/unnamed/part_010
lines 344-349): `if (!incidentId || !incidentType || !severity ||
!latitude || !longitude || !helperPhone)` — only JavaScript falsiness of
the required fields (the empty string; the number 0 for the coordinates).
No UUID, coordinate-range, phone digit-count, description-length or
severity check is performed by this handler. -/
def smsValidate (r : SmsAlertRequest) : Bool :=
  !(r.incidentId == "") && !(r.incidentType == "") && !(r.severity == "") &&
    !(r.latitude == 0) && !(r.longitude == 0) && !(r.helperPhone == "")

/-- `severityEmoji` (src/unnamed/part_010 line 355 and
trigger-emergency-alerts line 180). -/
def severityEmoji (severity : String) : String :=
  if severity == "critical" then "🚨"
  else if severity == "high" then "⚠️"
  else "📢"

/-- `mapsLink` of send-sms-alert (part_010 line 352) and
trigger-emergency-alerts (line 170). -/
def smsMapsLink (lat lng : ℚ) : String :=
  "https://maps.google.com/?q=" ++ numStr lat ++ "," ++ numStr lng

/-- `shortType` of send-sms-alert (part_010 line 356): capitalisation of
the raw incident type — no truncation, no control-character stripping. -/
def smsShortType (r : SmsAlertRequest) : String :=
  capitalizeJs r.incidentType

/-- `shortDesc` of send-sms-alert (part_010 line 357): the raw
description, truncated to 47 characters plus an ellipsis when longer than
50 — no control-character stripping. -/
def smsShortDesc (r : SmsAlertRequest) : String :=
  if 50 < r.description.length then jsTake r.description 47 ++ "..."
  else r.description

/-- `smsMessage` of send-sms-alert (part_010 line 359): emoji, raw type,
raw severity, raw short description and map link. -/
def smsMessage (r : SmsAlertRequest) : String :=
  severityEmoji r.severity ++ " AEGIS ALERT\n" ++ smsShortType r ++ " - " ++
    jsUpper r.severity ++ "\n" ++ smsShortDesc r ++ "\nLocation: " ++
    smsMapsLink r.latitude r.longitude

/-- The lookahead `\d{4}` of the masking regex: the next four characters
exist and are digits. -/
def fourDigitsNext (l : List Char) : Bool :=
  (l.take 4).length == 4 && (l.take 4).all isDigitJs

/-- `.replace(/\d(?=\d{4})/g, "*")` (src/unnamed/part_010 line 376): star
every digit that is immediately followed by four digits. -/
def maskChars : List Char → List Char
  | [] => []
  | c :: rest =>
      (if isDigitJs c && fourDigitsNext rest then '*' else c) :: maskChars rest

/-- The masking applied to the raw `helperPhone` before it is stored in
the `sms_alert_generated` metadata. -/
def maskPhone (s : String) : String := String.mk (maskChars s.data)

/-- The send-sms-alert handler (src/unnamed/part_010 lines 284-400):
admin gate (319-327), falsy required-field validation (344-349), message
construction from the raw fields (352-363), then exactly one
`sms_alert_generated` audit insert (365-380) whose metadata stores the
raw helper name and the raw `helperPhone` run through the masking
regex. -/
def smsAlert (uid email : String) (isAdmin : Bool) (r : SmsAlertRequest) :
    Except ApiError (String × List AuditLogEntry) :=
  if !isAdmin then Except.error ApiError.authorizationError
  else if !smsValidate r then Except.error ApiError.validationError
  else
    Except.ok (smsMessage r,
      [{ action := "sms_alert_generated",
         incident_id := some r.incidentId,
         actor_id := some uid,
         actor_email := some email,
         metadata :=
           [("helper_id", r.helperId),
            ("helper_name", r.helperName),
            ("helper_phone", maskPhone r.helperPhone),
            ("severity", r.severity),
            ("incident_type", r.incidentType)] }])

/-- The bulk-alert request body of trigger-emergency-alerts/index.ts;
`radiusKm` defaults to 2.0 when absent. -/
structure BulkAlertRequest where
  incidentId : String
  incidentType : String
  severity : String
  description : String
  latitude : ℚ
  longitude : ℚ
  locationName : Option String
  aiSummary : Option String
  radiusKm : Option ℚ
deriving DecidableEq, Repr

/-- The validation of trigger-emergency-alerts/index.ts lines 90-133:
required fields truthy, well-formed UUID, coordinates in range, severity
in the closed set, description at most 5000 characters. -/
def bulkValidate (r : BulkAlertRequest) : Bool :=
  !(r.incidentId == "") && !(r.incidentType == "") && !(r.severity == "") &&
    isUuid r.incidentId &&
    decide (-90 ≤ r.latitude) && decide (r.latitude ≤ 90) &&
    decide (-180 ≤ r.longitude) && decide (r.longitude ≤ 180) &&
    validSeverities.contains (jsLower r.severity) &&
    !(5000 < r.description.length)

/-- `sanitizedDescription` of trigger-emergency-alerts: cap 5000. -/
def bulkSanitizedDescription (r : BulkAlertRequest) : String :=
  stripCtl (jsTake r.description 5000)

/-- `sanitizedLocationName` of trigger-emergency-alerts: cap 200. -/
def bulkSanitizedLocationName (r : BulkAlertRequest) : String :=
  stripCtl (jsTake (jsOrOpt r.locationName "See map link") 200)

/-- `sanitizedIncidentType` of trigger-emergency-alerts: cap 50. -/
def bulkSanitizedIncidentType (r : BulkAlertRequest) : String :=
  stripCtl (jsTake r.incidentType 50)

/-- `sanitizedAiSummary` of trigger-emergency-alerts line 139: the AI
summary, defaulting to the first 100 characters of the sanitized
description, capped at 500 and control-stripped. -/
def bulkSanitizedAiSummary (r : BulkAlertRequest) : String :=
  stripCtl (jsTake (jsOrOpt r.aiSummary (jsTake (bulkSanitizedDescription r) 100)) 500)

/-- `shortType` of trigger-emergency-alerts line 181. -/
def bulkShortType (r : BulkAlertRequest) : String :=
  capitalizeJs (bulkSanitizedIncidentType r)

/-- The per-helper SMS text of trigger-emergency-alerts line 204. -/
def bulkSmsMessage (r : BulkAlertRequest) : String :=
  severityEmoji r.severity ++ " AEGIS: " ++ bulkShortType r ++ " - " ++
    jsUpper r.severity ++ ". " ++ jsTake (bulkSanitizedAiSummary r) 50 ++
    "... Location: " ++ smsMapsLink r.latitude r.longitude

/-- The per-helper WhatsApp text of trigger-emergency-alerts lines
186-198; `timestamp` is the formatted wall clock and `distStr` the
rendered `helper.distance_km.toFixed(2)`. -/
def bulkWhatsappMessage (r : BulkAlertRequest) (timestamp distStr : String) :
    String :=
  severityEmoji r.severity ++ " *AEGIS EMERGENCY ALERT*\n\n*Type:* " ++
    bulkShortType r ++ "\n*Severity:* " ++ jsUpper r.severity ++
    "\n*Location:* " ++ bulkSanitizedLocationName r ++ "\n\n*Summary:* " ++
    bulkSanitizedAiSummary r ++ "\n\n📍 *Google Maps:* " ++
    smsMapsLink r.latitude r.longitude ++ "\n\n⏰ *Time:* " ++ timestamp ++
    "\n\n_You are " ++ distStr ++
    " km away. Please respond immediately if available._"

/-- The `bulk_emergency_alerts_generated` audit insert of
trigger-emergency-alerts lines 223-235: counts, ids and the clamped
radius — no contact address. -/
def bulkAuditEntry (uid email : String) (r : BulkAlertRequest)
    (found : List (Helper ℚ × ℚ)) : AuditLogEntry :=
  { action := "bulk_emergency_alerts_generated",
    incident_id := some r.incidentId,
    actor_id := some uid,
    actor_email := some email,
    metadata :=
      [("severity", r.severity),
       ("incident_type", bulkSanitizedIncidentType r),
       ("helpers_count", toString found.length),
       ("radius_km", numStr (validatedRadiusKm (r.radiusKm.getD 2))),
       ("helper_ids", String.intercalate "," (found.map (fun p => p.1.id)))] }

/-- trigger-emergency-alerts/index.ts: admin gate (64-73), validation
(90-133), radius clamp (116), the `find_nearby_helpers` call with the
clamped radius (142-147) — the query re-checks the admin role itself —
then either a zero-helper success with no audit write (157-167) or the
alert fan-out followed by exactly one `bulk_emergency_alerts_generated`
insert (223-235).  The result is the `alertsGenerated` count and the audit
entries written; the distance expression is a parameter as in
`find_nearby_rows`. -/
def bulkTriggerAlerts (uid email : String) (isAdmin : Bool)
    (r : BulkAlertRequest) (dist : ℚ → ℚ → ℚ → ℚ → ℚ)
    (hs : List (Helper ℚ)) : Except ApiError (ℕ × List AuditLogEntry) :=
  if !isAdmin then Except.error ApiError.authorizationError
  else if !bulkValidate r then Except.error ApiError.validationError
  else
    match find_nearby_helpers isAdmin dist r.latitude r.longitude
        (validatedRadiusKm (r.radiusKm.getD 2)) hs with
    | Except.error e => Except.error e
    | Except.ok found =>
        if found.isEmpty then Except.ok (0, [])
        else Except.ok (found.length, [bulkAuditEntry uid email r found])

/-- Count of the audit entries carrying a given action. -/
def countAction (l : List AuditLogEntry) (act : String) : ℕ :=
  (l.filter (fun e => e.action == act)).length

/-- A well-formed WhatsApp alert request whose description carries the
control character `\x01`. -/
def cexWhatsReq : WhatsAppAlertRequest :=
  { incidentId := "11111111-2222-3333-4444-555555555555",
    helperId := "aaaaaaaa-bbbb-cccc-dddd-eeeeeeeeeeee",
    helperName := "Asha", helperMobile := "+91 98765 43210",
    incidentType := "fire", severity := "critical",
    description := "Smoke\x01 in server room",
    latitude := 12, longitude := 77, locationName := some "Block C" }

/-- An SMS alert request that passes the handler's required-field
validation, with a 49-character incident type and a long description
carrying the control character `\x01` within its first 47 characters. -/
def cexSmsReq : SmsAlertRequest :=
  { incidentId := "11111111-2222-3333-4444-555555555555",
    incidentType := "infrastructure-water-main-rupture-east-quadrangle",
    severity := "critical",
    description := "Major flood\x01ing in the basement levels, pumps overwhelmed, need shutoff",
    latitude := -89, longitude := -179,
    helperName := "Ravi", helperPhone := "9876543210", helperId := "h1" }

/-- An SMS alert request whose phone number has only 3 digits. -/
def cexSms3 : SmsAlertRequest := { cexSmsReq with helperPhone := "911" }

/-- An SMS alert request whose phone number carries a country code and
space separators. -/
def cexSmsMask : SmsAlertRequest :=
  { cexSmsReq with helperPhone := "+91 98765 43210" }

/-- A WhatsApp alert request whose phone number has 20 digits. -/
def cexWhats20 : WhatsAppAlertRequest :=
  { cexWhatsReq with helperMobile := "99999999999999999999",
                     description := "Short note" }

/-- A well-formed bulk alert request (used with an empty helper set). -/
def cexBulkReq : BulkAlertRequest :=
  { incidentId := "11111111-2222-3333-4444-555555555555",
    incidentType := "fire", severity := "high",
    description := "Visible flames on the second floor",
    latitude := 12, longitude := 77, locationName := some "Block C",
    aiSummary := some "Fire on floor 2", radiusKm := some 5 }

/-- An authenticated non-admin actor who is not the reporter below. -/
def plainActor : Actor := { id := "u2", email := "u2@example.org", role := "user" }

/-- An admin actor. -/
def adminActor : Actor := { id := "u9", email := "ops@example.org", role := "admin" }

/-- An active incident reported by `u1`. -/
def activeIncident : Incident :=
  { id := "inc-1", type := IncidentType.fire,
    description := "Trash fire behind block C",
    latitude := 12, longitude := 77, location_name := some "Block C",
    status := IncidentStatus.active, severity := some IncidentSeverity.high,
    ai_analysis := none, reported_by := some "u1",
    resolved_by := none, resolved_at := none,
    created_at := "2026-01-10T08:00:00Z", updated_at := "2026-01-10T08:00:00Z" }

instance instIsTotalSndLe {α β : Type} [LinearOrder β] :
    IsTotal (α × β) (fun p q => p.2 ≤ q.2) :=
  ⟨fun p q => le_total p.2 q.2⟩

instance instIsTransSndLe {α β : Type} [LinearOrder β] :
    IsTrans (α × β) (fun p q => p.2 ≤ q.2) :=
  ⟨fun _ _ _ hpq hqr => le_trans hpq hqr⟩

end Aegis

namespace Aegis

theorem mem_find_nearby_rows {α : Type} [LinearOrder α]
    (dist : α → α → α → α → α) (lat lng r : α) (hs : List (Helper α))
    (h : Helper α) (x : α) :
    (h, x) ∈ find_nearby_rows dist lat lng r hs ↔
      h ∈ hs ∧ h.is_active = true ∧ dist lat lng h.latitude h.longitude ≤ r ∧
        x = dist lat lng h.latitude h.longitude := by
  unfold find_nearby_rows
  rw [List.mem_insertionSort, List.mem_filterMap]
  constructor
  · rintro ⟨a, ha, hfa⟩
    rw [List.mem_filter] at ha
    by_cases hle : dist lat lng a.latitude a.longitude ≤ r
    · rw [if_pos hle] at hfa
      obtain ⟨rfl, rfl⟩ := Prod.mk.injEq .. ▸ Option.some.injEq .. ▸ hfa
      exact ⟨ha.1, ha.2, hle, rfl⟩
    · rw [if_neg hle] at hfa
      exact absurd hfa (Option.noConfusion)
  · rintro ⟨hmem, hact, hle, rfl⟩
    exact ⟨h, List.mem_filter.mpr ⟨hmem, hact⟩, by rw [if_pos hle]⟩

theorem sorted_find_nearby_rows {α : Type} [LinearOrder α]
    (dist : α → α → α → α → α) (lat lng r : α) (hs : List (Helper α)) :
    List.Sorted (· ≤ ·)
      ((find_nearby_rows dist lat lng r hs).map Prod.snd) := by
  unfold find_nearby_rows
  rw [List.Sorted, List.pairwise_map]
  exact List.sorted_insertionSort (fun p q : Helper α × α => p.2 ≤ q.2) _

/-- C1: for every helper set and radius, `find_nearby_helpers` returns
exactly the `is_active` helpers whose great-circle distance (Earth radius
6371 km, the source's formula) from the query point is at most the radius,
each paired with that distance, sorted ascending by distance; an inactive
helper never appears. -/
theorem find_nearby_helpers_exact_and_sorted (lat lng r : ℝ)
    (hs : List (Helper ℝ)) :
    find_nearby_helpers true distance_km lat lng r hs =
        Except.ok (find_nearby_rows distance_km lat lng r hs) ∧
    (∀ (h : Helper ℝ) (x : ℝ),
        (h, x) ∈ find_nearby_rows distance_km lat lng r hs ↔
          h ∈ hs ∧ h.is_active = true ∧
            distance_km lat lng h.latitude h.longitude ≤ r ∧
            x = distance_km lat lng h.latitude h.longitude) ∧
    List.Sorted (· ≤ ·)
      ((find_nearby_rows distance_km lat lng r hs).map Prod.snd) ∧
    (∀ (h : Helper ℝ) (x : ℝ), h.is_active = false →
        (h, x) ∉ find_nearby_rows distance_km lat lng r hs) := by
  refine ⟨rfl, mem_find_nearby_rows distance_km lat lng r hs,
    sorted_find_nearby_rows distance_km lat lng r hs, ?_⟩
  intro h x hact hmem
  rw [mem_find_nearby_rows] at hmem
  rw [hact] at hmem
  exact Bool.false_ne_true hmem.2.1

theorem validatedRadiusKm_1000 {α : Type} [LinearOrderedField α] :
    validatedRadiusKm (1000 : α) = validatedRadiusKm (50 : α) := by
  unfold validatedRadiusKm
  rw [max_eq_left (by norm_num : (1 / 10 : α) ≤ 1000),
    max_eq_left (by norm_num : (1 / 10 : α) ≤ 50),
    min_eq_right (by norm_num : (50 : α) ≤ 1000), min_self]

theorem validatedRadiusKm_neg5 {α : Type} [LinearOrderedField α] :
    validatedRadiusKm (-5 : α) = validatedRadiusKm (1 / 10 : α) := by
  unfold validatedRadiusKm
  rw [max_eq_right (by norm_num : (-5 : α) ≤ 1 / 10), max_self]

theorem bulkTriggerAlerts_radius_congr (uid email : String)
    (r : BulkAlertRequest) (dist : ℚ → ℚ → ℚ → ℚ → ℚ)
    (hs : List (Helper ℚ)) (v w : Option ℚ)
    (h : validatedRadiusKm (v.getD 2) = validatedRadiusKm (w.getD 2)) :
    bulkTriggerAlerts uid email true { r with radiusKm := v } dist hs =
      bulkTriggerAlerts uid email true { r with radiusKm := w } dist hs := by
  cases r
  simp only [bulkTriggerAlerts, bulkAuditEntry, bulkValidate,
    bulkSanitizedIncidentType, jsTake]
  rw [h]

/-- C2: the caller-supplied `radiusKm` is clamped to `[0.1, 50]` before it
is used to filter helpers: the clamped radius always lies in that
interval, and both the distance query and the whole bulk-alert handler
behave at `radiusKm = 1000` exactly as at `50`, and at `radiusKm = -5`
exactly as at `0.1`. -/
theorem radiusKm_clamped_before_use (lat lng : ℝ) (hs : List (Helper ℝ)) :
    triggerFindNearby lat lng 1000 hs = triggerFindNearby lat lng 50 hs ∧
    triggerFindNearby lat lng (-5) hs = triggerFindNearby lat lng (1 / 10) hs ∧
    (∀ radiusKm : ℝ,
        1 / 10 ≤ validatedRadiusKm radiusKm ∧ validatedRadiusKm radiusKm ≤ 50) ∧
    (∀ (uid email : String) (r : BulkAlertRequest)
        (dist : ℚ → ℚ → ℚ → ℚ → ℚ) (hs2 : List (Helper ℚ)),
        bulkTriggerAlerts uid email true { r with radiusKm := some 1000 } dist hs2 =
          bulkTriggerAlerts uid email true { r with radiusKm := some 50 } dist hs2 ∧
        bulkTriggerAlerts uid email true { r with radiusKm := some (-5) } dist hs2 =
          bulkTriggerAlerts uid email true { r with radiusKm := some (1 / 10) } dist hs2) := by
  refine ⟨?_, ?_, ?_, ?_⟩
  · unfold triggerFindNearby
    rw [validatedRadiusKm_1000]
  · unfold triggerFindNearby
    rw [validatedRadiusKm_neg5]
  · intro radiusKm
    constructor
    · exact le_min (le_max_right _ _) (by norm_num)
    · exact min_le_right _ _
  · intro uid email r dist hs2
    constructor
    · exact bulkTriggerAlerts_radius_congr uid email r dist hs2 _ _
        (by simp only [Option.getD_some]; exact validatedRadiusKm_1000)
    · exact bulkTriggerAlerts_radius_congr uid email r dist hs2 _ _
        (by simp only [Option.getD_some]; exact validatedRadiusKm_neg5)

theorem rlsCanUpdate_eq_canModify (a : Actor) (i : Incident) :
    rlsCanUpdate a.id (a.role == "admin") i = canModify a i := rfl

/-- C3: an actor who is neither the reporter nor an admin receives an
authorization error from `handleResolve` and `handleEscalate` with the
incident unchanged and no audit entry written, and, lacking the admin
role, receives the authorization error from `find_nearby_helpers`. -/
theorem unauthorized_callers_rejected (a : Actor) (i : Incident)
    (now : String) (h : canModify a i = false) :
    handleResolve a now i = (i, [], some ApiError.authorizationError) ∧
    handleEscalate a now i = (i, [], some ApiError.authorizationError) ∧
    (∀ (lat lng r : ℝ) (hs : List (Helper ℝ)),
        find_nearby_helpers (a.role == "admin") distance_km lat lng r hs =
          Except.error ApiError.authorizationError) := by
  have hadm : (a.role == "admin") = false := by
    unfold canModify at h
    exact (Bool.or_eq_false_iff.mp h).2
  refine ⟨by simp [handleResolve, h], by simp [handleEscalate, h], ?_⟩
  intro lat lng r hs
  simp [find_nearby_helpers, hadm]

theorem unauthorized_callers_rejected_check :
    handleResolve plainActor "2026-01-11T09:00:00Z" activeIncident =
      (activeIncident, [], some ApiError.authorizationError) ∧
    handleEscalate plainActor "2026-01-11T09:00:00Z" activeIncident =
      (activeIncident, [], some ApiError.authorizationError) ∧
    find_nearby_helpers (plainActor.role == "admin") distance_km 12 77 2 [] =
      Except.error ApiError.authorizationError :=
  ⟨(unauthorized_callers_rejected plainActor activeIncident
      "2026-01-11T09:00:00Z" (by decide)).1,
   (unauthorized_callers_rejected plainActor activeIncident
      "2026-01-11T09:00:00Z" (by decide)).2.1,
   (unauthorized_callers_rejected plainActor activeIncident
      "2026-01-11T09:00:00Z" (by decide)).2.2 12 77 2 []⟩

theorem canModify_resolveUpdate (a : Actor) (uid now : String)
    (i : Incident) : canModify a (resolveUpdate uid now i) = canModify a i :=
  rfl

theorem handleResolve_fst (a : Actor) (now : String) (j : Incident)
    (h : canModify a j = true) :
    (handleResolve a now j).1 = resolveUpdate a.id now j := by
  simp [handleResolve, incidentsUpdate, rlsCanUpdate_eq_canModify, h]

theorem handleEscalate_fst (a : Actor) (now : String) (j : Incident)
    (h : canModify a j = true) :
    (handleEscalate a now j).1 = { j with status := IncidentStatus.escalated } := by
  simp [handleEscalate, incidentsUpdate, rlsCanUpdate_eq_canModify, h]

theorem handleResolve_logs (a : Actor) (now : String) (j : Incident)
    (h : canModify a j = true) :
    (handleResolve a now j).2.1 =
      log_incident_status_change j (resolveUpdate a.id now j) a.id now ++
        [resolvedEntry a j] := by
  simp [handleResolve, incidentsUpdate, rlsCanUpdate_eq_canModify, h]

/-- C4: the status-change audit observer writes an entry exactly when the
update changes `status`, and resolving the same incident twice yields
exactly one `incident_status_changed` entry, not two. -/
theorem status_change_logged_once (a : Actor) (i : Incident) (t1 t2 : String)
    (hmod : canModify a i = true) (hact : i.status = IncidentStatus.active) :
    (∀ (old new_ : Incident) (uid now : String),
        log_incident_status_change old new_ uid now ≠ [] ↔
          old.status ≠ new_.status) ∧
    countAction ((handleResolve a t1 i).2.1 ++
        (handleResolve a t2 (handleResolve a t1 i).1).2.1)
      "incident_status_changed" = 1 := by
  constructor
  · intro old new_ uid now
    unfold log_incident_status_change
    by_cases h : old.status = new_.status
    · simp [h]
    · simp [h]
  · have hmod2 : canModify a (resolveUpdate a.id t1 i) = true := by
      rw [canModify_resolveUpdate]; exact hmod
    rw [handleResolve_fst a t1 i hmod, handleResolve_logs a t1 i hmod,
      handleResolve_logs a t2 _ hmod2]
    have hbeq1 : ("incident_status_changed" == "incident_status_changed") = true := rfl
    have hbeq2 : ("incident_resolved" == "incident_status_changed") = false := rfl
    simp [log_incident_status_change, resolveUpdate, hact, countAction,
      resolvedEntry, hbeq1, hbeq2]

theorem status_change_logged_once_check :
    countAction
        ((handleResolve adminActor "2026-01-11T09:00:00Z" activeIncident).2.1 ++
          (handleResolve adminActor "2026-01-11T09:00:05Z"
            (handleResolve adminActor "2026-01-11T09:00:00Z" activeIncident).1).2.1)
      "incident_status_changed" = 1 ∧
    (∀ (old new_ : Incident) (uid now : String),
        log_incident_status_change old new_ uid now ≠ [] ↔
          old.status ≠ new_.status) :=
  ⟨(status_change_logged_once adminActor activeIncident "2026-01-11T09:00:00Z"
      "2026-01-11T09:00:05Z" (by decide) (by decide)).2,
   (status_change_logged_once adminActor activeIncident "2026-01-11T09:00:00Z"
      "2026-01-11T09:00:05Z" (by decide) (by decide)).1⟩

/-- C8: in every incident state reachable through creation, resolve,
escalate and the AI write-back, `resolved_at` and `resolved_by` are set
exactly when the status is `resolved`; and an authorized resolve sets
`status = resolved`, `resolved_by` and `resolved_at` in the same update. -/
theorem resolved_fields_iff_status (i : Incident) (hr : ReachableIncident i) :
    (i.status = IncidentStatus.resolved ↔
      i.resolved_at.isSome = true ∧ i.resolved_by.isSome = true) ∧
    (∀ (a : Actor) (now : String) (j : Incident), canModify a j = true →
        (handleResolve a now j).1 =
          { j with status := IncidentStatus.resolved,
                   resolved_by := some a.id, resolved_at := some now }) := by
  refine ⟨?_, fun a now j h => handleResolve_fst a now j h⟩
  induction hr with
  | created newId ty descr lat lng locName uid t =>
      simp [createIncident]
  | resolvedStep a now i hri hmod hact ih =>
      rw [handleResolve_fst a now i hmod]
      simp [resolveUpdate]
  | escalatedStep a now i hri hmod hact ih =>
      rw [handleEscalate_fst a now i hmod]
      constructor
      · intro h'
        exact absurd h' (by simp)
      · intro hboth
        have hres : i.status = IncidentStatus.resolved := by
          exact ih.mpr (by simpa using hboth)
        rw [hact] at hres
        exact absurd hres (by simp)
  | aiStep sev an i hri ih =>
      simpa [aiWriteBack] using ih

theorem resolved_fields_iff_status_check :
    (((handleResolve adminActor "2026-01-11T09:00:00Z"
          (createIncident "inc-9" IncidentType.medical "Fainted student"
            12 77 none "u1" "2026-01-10T08:00:00Z")).1.status =
        IncidentStatus.resolved ↔
      (handleResolve adminActor "2026-01-11T09:00:00Z"
          (createIncident "inc-9" IncidentType.medical "Fainted student"
            12 77 none "u1" "2026-01-10T08:00:00Z")).1.resolved_at.isSome = true ∧
      (handleResolve adminActor "2026-01-11T09:00:00Z"
          (createIncident "inc-9" IncidentType.medical "Fainted student"
            12 77 none "u1" "2026-01-10T08:00:00Z")).1.resolved_by.isSome = true)) ∧
    (∀ (a : Actor) (now : String) (j : Incident), canModify a j = true →
        (handleResolve a now j).1 =
          { j with status := IncidentStatus.resolved,
                   resolved_by := some a.id, resolved_at := some now }) :=
  resolved_fields_iff_status _
    (ReachableIncident.resolvedStep adminActor "2026-01-11T09:00:00Z"
      (createIncident "inc-9" IncidentType.medical "Fainted student"
        12 77 none "u1" "2026-01-10T08:00:00Z")
      (ReachableIncident.created "inc-9" IncidentType.medical "Fainted student"
        12 77 none "u1" "2026-01-10T08:00:00Z")
      (by decide) (by decide))

/-- C10: escalate changes only the `status` field (to `escalated` when the
actor is authorized); every other incident field is left unchanged. -/
theorem escalate_updates_only_status (a : Actor) (now : String)
    (i : Incident) :
    (handleEscalate a now i).1.id = i.id ∧
    (handleEscalate a now i).1.type = i.type ∧
    (handleEscalate a now i).1.description = i.description ∧
    (handleEscalate a now i).1.latitude = i.latitude ∧
    (handleEscalate a now i).1.longitude = i.longitude ∧
    (handleEscalate a now i).1.location_name = i.location_name ∧
    (handleEscalate a now i).1.severity = i.severity ∧
    (handleEscalate a now i).1.ai_analysis = i.ai_analysis ∧
    (handleEscalate a now i).1.reported_by = i.reported_by ∧
    (handleEscalate a now i).1.resolved_by = i.resolved_by ∧
    (handleEscalate a now i).1.resolved_at = i.resolved_at ∧
    (handleEscalate a now i).1.created_at = i.created_at ∧
    (handleEscalate a now i).1.status =
      (if canModify a i then IncidentStatus.escalated else i.status) := by
  by_cases h : canModify a i
  · rw [handleEscalate_fst a now i h]
    simp [h]
  · have h' : canModify a i = false := Bool.eq_false_iff.mpr h
    simp [handleEscalate, h']

/-- C7 counterexample: the gateway content `{}` parses as JSON but not
into the analysis shape, yet the code raises a `TypeError` (an internal
error with nothing persisted) instead of substituting the fallback
analysis. -/
theorem analyze_fallback_claim_refuted :
    analyzeAfterParse (some (Js.obj [])) =
      Except.error RuntimeFailure.typeError := rfl

/-- C7 amended: when `JSON.parse` of the fence-stripped content throws,
the fixed fallback analysis — severity `medium`, exactly three generic
triage actions, exactly two generic resource recommendations, and a
reasoning string noting the fallback — is substituted and persisted
through the same write as a well-formed analysis. -/
theorem analyze_fallback_on_parse_failure :
    analyzeAfterParse none = Except.ok ("medium", fallbackAnalysisJs) ∧
    jsField fallbackAnalysisJs "severity" = some (Js.str "medium") ∧
    jsField fallbackAnalysisJs "immediateActions" =
      some (Js.arr
        [Js.str "Dispatch nearest available responder to the location",
         Js.str "Secure the immediate area",
         Js.str "Gather additional information from witnesses"]) ∧
    jsField fallbackAnalysisJs "resourceRecommendations" =
      some (Js.arr [Js.str "Security personnel", Js.str "First aid kit if needed"]) ∧
    jsField fallbackAnalysisJs "reasoning" =
      some (Js.str "Unable to fully analyze. Defaulting to medium priority for assessment.") :=
  ⟨rfl, rfl, rfl, rfl, rfl⟩

theorem fourDigitsNext_iff {l : List Char}
    (hd : ∀ c ∈ l, isDigitJs c = true) :
    fourDigitsNext l = true ↔ 4 ≤ l.length := by
  unfold fourDigitsNext
  have hall : (l.take 4).all isDigitJs = true :=
    List.all_eq_true.mpr (fun c hc => hd c (List.mem_of_mem_take hc))
  rw [hall, Bool.and_true, List.length_take]
  simp [Nat.min_eq_right, beq_iff_eq]

theorem maskChars_all_digits (l : List Char)
    (hd : ∀ c ∈ l, isDigitJs c = true) :
    maskChars l =
      List.replicate (l.length - 4) '*' ++ l.drop (l.length - 4) := by
  induction l with
  | nil => rfl
  | cons c rest ih =>
      have hc : isDigitJs c = true := hd c (List.mem_cons_self c rest)
      have hrest : ∀ x ∈ rest, isDigitJs x = true :=
        fun x hx => hd x (List.mem_cons_of_mem c hx)
      by_cases h4 : 4 ≤ rest.length
      · have hnext : fourDigitsNext rest = true :=
          (fourDigitsNext_iff hrest).mpr h4
        have e : rest.length + 1 - 4 = (rest.length - 4) + 1 := by omega
        simp only [maskChars, hc, hnext, Bool.and_self, if_true,
          List.length_cons, e, List.replicate_succ, List.cons_append,
          List.drop_succ_cons]
        rw [ih hrest]
      · have hnext : fourDigitsNext rest = false := by
          rcases Bool.eq_false_or_eq_true (fourDigitsNext rest) with h | h
          · exact absurd ((fourDigitsNext_iff hrest).mp h) h4
          · exact h
        have e0 : rest.length - 4 = 0 := by omega
        have e1 : rest.length + 1 - 4 = 0 := by omega
        simp only [maskChars, hnext, Bool.and_false, if_false,
          List.length_cons, e1, List.replicate, List.nil_append,
          List.drop_zero]
        rw [ih hrest, e0]
        simp

/-- C9 amended: every successful single-channel alert writes exactly one
audit entry; a successful bulk call writes exactly one entry when at least
one helper matched and none when zero matched; the WhatsApp and bulk
entries carry no phone-derived field, and the SMS entry stores the raw
`helperPhone` run through the masking regex — which stars every digit
followed by four digits, fully masking all but the last four digits of a
contiguous-digit number (while a separator-formatted number can pass
through with most digits unmasked, see the counterexample). -/
theorem dispatch_audit_amended :
    (∀ (uid email : String) (r : SmsAlertRequest)
        (out : String × List AuditLogEntry),
        smsAlert uid email true r = Except.ok out →
          out.2.length = 1 ∧
          ∀ e ∈ out.2, e.action = "sms_alert_generated" ∧
            e.metadata.lookup "helper_phone" =
              some (maskPhone r.helperPhone)) ∧
    (∀ s : String, (∀ c ∈ s.data, isDigitJs c = true) →
        maskPhone s =
          String.mk
            (List.replicate (s.data.length - 4) '*' ++
              s.data.drop (s.data.length - 4))) ∧
    (∀ (uid email : String) (r : WhatsAppAlertRequest)
        (out : String × List AuditLogEntry),
        whatsappAlert uid email true r = Except.ok out →
          out.2.length = 1 ∧
          ∀ e ∈ out.2, e.action = "whatsapp_alert_generated" ∧
            e.metadata.map Prod.fst =
              ["helper_id", "helper_name", "alert_type", "severity",
               "incident_type"]) ∧
    (∀ (uid email : String) (r : BulkAlertRequest)
        (dist : ℚ → ℚ → ℚ → ℚ → ℚ) (hs : List (Helper ℚ))
        (n : ℕ) (entries : List AuditLogEntry),
        bulkTriggerAlerts uid email true r dist hs = Except.ok (n, entries) →
          (n ≠ 0 →
            entries.length = 1 ∧
            ∀ e ∈ entries, e.action = "bulk_emergency_alerts_generated" ∧
              e.metadata.map Prod.fst =
                ["severity", "incident_type", "helpers_count", "radius_km",
                 "helper_ids"]) ∧
          (n = 0 → entries = [])) := by
  refine ⟨?_, ?_, ?_, ?_⟩
  · intro uid email r out h
    cases hv : smsValidate r with
    | false => simp [smsAlert, hv] at h
    | true =>
        simp only [smsAlert, hv, Bool.not_true, Bool.not_false,
          Bool.false_eq_true, if_false, Except.ok.injEq] at h
        subst h
        refine ⟨rfl, ?_⟩
        intro e he
        simp only [List.mem_singleton] at he
        subst he
        exact ⟨rfl, rfl⟩
  · intro s hd
    unfold maskPhone
    rw [maskChars_all_digits s.data hd]
  · intro uid email r out h
    cases hv : whatsappValidate r with
    | false => simp [whatsappAlert, hv] at h
    | true =>
        simp only [whatsappAlert, hv, Bool.not_true, Bool.not_false,
          Bool.false_eq_true, if_false, Except.ok.injEq] at h
        subst h
        refine ⟨rfl, ?_⟩
        intro e he
        simp only [List.mem_singleton] at he
        subst he
        exact ⟨rfl, rfl⟩
  · intro uid email r dist hs n entries h
    cases hv : bulkValidate r with
    | false => simp [bulkTriggerAlerts, hv] at h
    | true =>
        simp only [bulkTriggerAlerts, hv, Bool.not_true, Bool.not_false,
          Bool.false_eq_true, if_false, find_nearby_helpers, if_true] at h
        by_cases he : (find_nearby_rows dist r.latitude r.longitude
            (validatedRadiusKm (r.radiusKm.getD 2)) hs).isEmpty = true
        · rw [if_pos he] at h
          obtain ⟨h1, h2⟩ := Prod.mk.injEq .. ▸ Except.ok.inj h
          constructor
          · intro hn; exact absurd h1.symm hn
          · intro _; exact h2.symm
        · rw [if_neg he] at h
          obtain ⟨h1, h2⟩ := Prod.mk.injEq .. ▸ Except.ok.inj h
          constructor
          · intro _
            rw [← h2]
            refine ⟨rfl, ?_⟩
            intro e hee
            simp only [List.mem_singleton] at hee
            subst hee
            exact ⟨rfl, rfl⟩
          · intro hn
            rw [← h1] at hn
            rw [List.isEmpty_iff_length_eq_zero] at he
            exact absurd hn he

theorem char_toNat_ofNat_valid {n : ℕ} (h : n.isValidChar) :
    (Char.ofNat n).toNat = n := by
  unfold Char.ofNat
  rw [dif_pos h]
  rfl

theorem isCtl_of_isCtl_toUpper {c : Char}
    (h : isCtl (Char.toUpper c) = true) : isCtl c = true := by
  unfold Char.toUpper at h
  dsimp only at h
  by_cases hc : c.toNat ≥ 97 ∧ c.toNat ≤ 122
  · rw [if_pos hc] at h
    have hval : (c.toNat - 32).isValidChar := Or.inl (by omega)
    rw [isCtl, char_toNat_ofNat_valid hval] at h
    simp only [Bool.or_eq_true, decide_eq_true_eq, beq_iff_eq] at h
    omega
  · rw [if_neg hc] at h
    exact h

theorem toLower_eq_self_of_isCtl {c : Char} (h : isCtl c = true) :
    Char.toLower c = c := by
  unfold Char.toLower
  simp only [isCtl, Bool.or_eq_true, decide_eq_true_eq, beq_iff_eq] at h
  rw [if_neg (by omega)]

theorem no_ctl_of_jsLower_eq {s t : String} (h : jsLower s = t)
    (ht : ∀ c ∈ t.data, isCtl c = false) : ∀ c ∈ s.data, isCtl c = false := by
  intro c hc
  rcases Bool.eq_false_or_eq_true (isCtl c) with htr | hf
  · exfalso
    have hmem : Char.toLower c ∈ (jsLower s).data :=
      List.mem_map_of_mem Char.toLower hc
    rw [h] at hmem
    have := ht (Char.toLower c) hmem
    rw [toLower_eq_self_of_isCtl htr] at this
    rw [htr] at this
    exact absurd this (by decide)
  · exact hf

theorem no_ctl_of_contains_severity {s : String}
    (h : validSeverities.contains (jsLower s) = true) :
    ∀ c ∈ s.data, isCtl c = false := by
  have hmem : jsLower s ∈ validSeverities := by
    simpa using h
  simp only [validSeverities, List.mem_cons, List.mem_singleton,
    List.not_mem_nil, or_false] at hmem
  rcases hmem with h' | h' | h' | h'
  · exact no_ctl_of_jsLower_eq h' (by decide)
  · exact no_ctl_of_jsLower_eq h' (by decide)
  · exact no_ctl_of_jsLower_eq h' (by decide)
  · exact no_ctl_of_jsLower_eq h' (by decide)

theorem no_ctl_jsUpper {s : String} (h : ∀ c ∈ s.data, isCtl c = false) :
    ∀ c ∈ (jsUpper s).data, isCtl c = false := by
  intro c hc
  unfold jsUpper at hc
  rcases List.mem_map.mp hc with ⟨d, hd, rfl⟩
  rcases Bool.eq_false_or_eq_true (isCtl (Char.toUpper d)) with htr | hf
  · exact absurd (isCtl_of_isCtl_toUpper htr) (by rw [h d hd]; exact Bool.false_ne_true)
  · exact hf

theorem no_ctl_stripCtl (s : String) :
    ∀ c ∈ (stripCtl s).data, isCtl c = false := by
  intro c hc
  unfold stripCtl at hc
  have := (List.mem_filter.mp hc).2
  simpa using this

theorem no_ctl_jsTake {s : String} (n : ℕ)
    (h : ∀ c ∈ s.data, isCtl c = false) :
    ∀ c ∈ (jsTake s n).data, isCtl c = false := by
  intro c hc
  exact h c (List.mem_of_mem_take hc)

theorem no_ctl_capitalizeJs {s : String}
    (h : ∀ c ∈ s.data, isCtl c = false) :
    ∀ c ∈ (capitalizeJs s).data, isCtl c = false := by
  unfold capitalizeJs
  cases hd : s.data with
  | nil => intro c hc; exact absurd hc (by simp)
  | cons a rest =>
      intro c hc
      rcases List.mem_cons.mp hc with rfl | hcr
      · rcases Bool.eq_false_or_eq_true (isCtl (Char.toUpper a)) with htr | hf
        · exact absurd (isCtl_of_isCtl_toUpper htr)
            (by rw [h a (by rw [hd]; exact List.mem_cons_self a rest)]
                exact Bool.false_ne_true)
        · exact hf
      · exact h c (by rw [hd]; exact List.mem_cons_of_mem a hcr)

theorem no_ctl_natChars (n : ℕ) : ∀ c ∈ natChars n, isCtl c = false := by
  induction n using Nat.strong_induction_on with
  | _ n ih =>
      rw [natChars]
      split
      · rename_i h10
        intro c hc
        rcases List.mem_singleton.mp hc with rfl
        interval_cases n <;> decide
      · rename_i h10
        intro c hc
        rcases List.mem_append.mp hc with hc | hc
        · exact ih (n / 10) (Nat.div_lt_self (by omega) (by omega)) c hc
        · rcases List.mem_singleton.mp hc with rfl
          have hm : n % 10 < 10 := Nat.mod_lt _ (by omega)
          generalize n % 10 = k at hm ⊢
          interval_cases k <;> decide

theorem no_ctl_intStr (i : ℤ) : ∀ c ∈ (intStr i).data, isCtl c = false := by
  unfold intStr
  split
  · intro c hc
    rw [String.data_append] at hc
    rcases List.mem_append.mp hc with hc | hc
    · have hc' : c = '-' := by simpa using hc
      subst hc'
      decide
    · exact no_ctl_natChars _ c hc
  · intro c hc
    exact no_ctl_natChars _ c hc

theorem no_ctl_numStr (q : ℚ) : ∀ c ∈ (numStr q).data, isCtl c = false := by
  unfold numStr
  split
  · exact no_ctl_intStr q.num
  · intro c hc
    rw [String.data_append, String.data_append] at hc
    rcases List.mem_append.mp hc with hc | hc
    · rcases List.mem_append.mp hc with hc | hc
      · exact no_ctl_intStr q.num c hc
      · have hc' : c = '/' := by simpa using hc
        subst hc'
        decide
    · exact no_ctl_natChars _ c hc

theorem no_ctl_severityEmoji (s : String) :
    ∀ c ∈ (severityEmoji s).data, isCtl c = false := by
  unfold severityEmoji
  split
  · decide
  · split
    · decide
    · decide

theorem no_ctl_append {s t : String}
    (hs : ∀ c ∈ s.data, isCtl c = false)
    (ht : ∀ c ∈ t.data, isCtl c = false) :
    ∀ c ∈ (s ++ t).data, isCtl c = false := by
  intro c hc
  rw [String.data_append] at hc
  rcases List.mem_append.mp hc with hc | hc
  · exact hs c hc
  · exact ht c hc

theorem whatsappValidate_min10 {r : WhatsAppAlertRequest}
    (hv : whatsappValidate r = true) :
    10 ≤ (cleanDigits r.helperMobile).length := by
  unfold whatsappValidate at hv
  simp only [Bool.and_eq_true] at hv
  have hj := hv.2
  simp only [Bool.not_eq_true', decide_eq_false_iff_not, Nat.not_lt] at hj
  exact hj

theorem bulkValidate_severity {r : BulkAlertRequest}
    (hv : bulkValidate r = true) :
    validSeverities.contains (jsLower r.severity) = true := by
  unfold bulkValidate at hv
  simp only [Bool.and_eq_true] at hv
  exact hv.1.2

theorem no_ctl_smsMapsLink (lat lng : ℚ) :
    ∀ c ∈ (smsMapsLink lat lng).data, isCtl c = false := by
  unfold smsMapsLink
  exact no_ctl_append
    (no_ctl_append (no_ctl_append (by decide) (no_ctl_numStr lat)) (by decide))
    (no_ctl_numStr lng)

theorem no_ctl_bulkSmsMessage {r : BulkAlertRequest}
    (hv : bulkValidate r = true) :
    ∀ c ∈ (bulkSmsMessage r).data, isCtl c = false := by
  have hsev : ∀ c ∈ r.severity.data, isCtl c = false :=
    no_ctl_of_contains_severity (bulkValidate_severity hv)
  have hst : ∀ c ∈ (bulkShortType r).data, isCtl c = false := by
    unfold bulkShortType bulkSanitizedIncidentType
    exact no_ctl_capitalizeJs (no_ctl_stripCtl _)
  have hai : ∀ c ∈ (bulkSanitizedAiSummary r).data, isCtl c = false := by
    unfold bulkSanitizedAiSummary
    exact no_ctl_stripCtl _
  unfold bulkSmsMessage
  exact no_ctl_append
    (no_ctl_append
      (no_ctl_append
        (no_ctl_append
          (no_ctl_append
            (no_ctl_append
              (no_ctl_append
                (no_ctl_append (no_ctl_severityEmoji r.severity) (by decide))
                hst)
              (by decide))
            (no_ctl_jsUpper hsev))
          (by decide))
        (no_ctl_jsTake 50 hai))
      (by decide))
    (no_ctl_smsMapsLink r.latitude r.longitude)

theorem stripCtl_jsTake_length (s : String) (n : ℕ) :
    (stripCtl (jsTake s n)).length ≤ n := by
  unfold stripCtl jsTake
  show ((s.data.take n).filter _).length ≤ n
  exact le_trans (List.length_filter_le _ _)
    (by rw [List.length_take]; exact min_le_left _ _)

/-- C5 amended: only the bulk-alert handler sanitizes — it truncates its
free-text inputs to their caps (description 5000, location name 200,
incident type 50, AI summary 500) and strips control characters, and its
per-helper SMS text carries no control character at all; the
single-channel WhatsApp and SMS handlers embed the raw description (and
the SMS handler the raw incident type) without control-character
stripping — the SMS handler only shortens the description to at most 50
characters — so an input control character appears verbatim in their
messages, and the SMS message can exceed the 160-character single-SMS
cap (see the counterexample). -/
theorem sanitize_caps_and_no_ctl :
    (∀ (s : String) (n : ℕ), (stripCtl (jsTake s n)).length ≤ n ∧
        ∀ c ∈ (stripCtl (jsTake s n)).data, isCtl c = false) ∧
    (∀ r : BulkAlertRequest, (bulkSanitizedDescription r).length ≤ 5000 ∧
        (bulkSanitizedLocationName r).length ≤ 200 ∧
        (bulkSanitizedIncidentType r).length ≤ 50 ∧
        (bulkSanitizedAiSummary r).length ≤ 500) ∧
    (∀ r : BulkAlertRequest, bulkValidate r = true →
        ∀ c ∈ (bulkSmsMessage r).data, isCtl c = false) ∧
    (∀ r : SmsAlertRequest, (smsShortDesc r).length ≤ 50) := by
  refine ⟨?_, ?_, ?_, ?_⟩
  · intro s n
    exact ⟨stripCtl_jsTake_length s n, no_ctl_stripCtl _⟩
  · intro r
    exact ⟨stripCtl_jsTake_length _ _, stripCtl_jsTake_length _ _,
      stripCtl_jsTake_length _ _, stripCtl_jsTake_length _ _⟩
  · intro r hv
    exact no_ctl_bulkSmsMessage hv
  · intro r
    unfold smsShortDesc
    split
    · rw [String.length_append]
      have h1 : (jsTake r.description 47).length ≤ 47 := by
        show (r.description.data.take 47).length ≤ 47
        rw [List.length_take]
        exact min_le_left _ _
      have h2 : ("..." : String).length = 3 := rfl
      omega
    · rename_i h
      omega

set_option maxRecDepth 8000

/-- C5 counterexample: a WhatsApp alert request that passes the handler's
validation and whose description carries the control character `\x01`
produces an alert message containing that control character verbatim; an
SMS request that passes the SMS handler's required-field validation and
carries `\x01` in its description likewise produces an SMS message
containing `\x01`; and that same valid SMS request, with a 49-character
type and long description, yields an SMS message of 171 characters,
beyond the 160-character single-SMS cap. -/
theorem sanitize_claim_refuted :
    '\x01' ∈ cexWhatsReq.description.data ∧
    isCtl '\x01' = true ∧
    whatsappValidate cexWhatsReq = true ∧
    '\x01' ∈ (whatsappMessageBody cexWhatsReq).data ∧
    '\x01' ∈ cexSmsReq.description.data ∧
    smsValidate cexSmsReq = true ∧
    '\x01' ∈ (smsMessage cexSmsReq).data ∧
    160 < (smsMessage cexSmsReq).length := by
  refine ⟨by decide, by decide, by decide, by decide, by decide, by decide,
    by decide, by decide⟩

/-- C6 counterexample: a phone number whose cleaned digit count is 20 —
outside 6-15 — passes the WhatsApp handler's validation and an alert is
generated; and a phone number with only 3 digits passes the SMS handler's
validation and an SMS alert is generated — neither produces a validation
error. -/
theorem phone_validation_claim_refuted :
    (cleanDigits cexWhats20.helperMobile).length = 20 ∧
    whatsappValidate cexWhats20 = true ∧
    whatsappAlert "u9" "ops@example.org" true cexWhats20 =
      Except.ok (whatsappMessageBody cexWhats20,
        [{ action := "whatsapp_alert_generated",
           incident_id := some cexWhats20.incidentId,
           actor_id := some "u9",
           actor_email := some "ops@example.org",
           metadata :=
             [("helper_id", cexWhats20.helperId),
              ("helper_name", cexWhats20.helperName),
              ("alert_type", "whatsapp_deep_link"),
              ("severity", cexWhats20.severity),
              ("incident_type", cexWhats20.incidentType)] }]) ∧
    (cleanDigits cexSms3.helperPhone).length = 3 ∧
    smsValidate cexSms3 = true ∧
    smsAlert "u9" "ops@example.org" true cexSms3 =
      Except.ok (smsMessage cexSms3,
        [{ action := "sms_alert_generated",
           incident_id := some cexSms3.incidentId,
           actor_id := some "u9",
           actor_email := some "ops@example.org",
           metadata :=
             [("helper_id", cexSms3.helperId),
              ("helper_name", cexSms3.helperName),
              ("helper_phone", maskPhone cexSms3.helperPhone),
              ("severity", cexSms3.severity),
              ("incident_type", cexSms3.incidentType)] }]) := by
  refine ⟨by decide, by decide, by rfl, by decide, by decide, by rfl⟩

/-- C6 amended: validation runs before any message is built and a failing
request dispatches nothing; but the 6-15 digit rule holds in neither
single-alert handler: the WhatsApp handler rejects exactly the requests
whose cleaned phone has fewer than 10 digits, with no upper bound, and
the SMS handler performs no digit-count validation at all — its
validation depends on the phone only through nonemptiness. -/
theorem phone_validation_amended :
    (∀ (uid email : String) (r : WhatsAppAlertRequest),
        (cleanDigits r.helperMobile).length < 10 →
        whatsappAlert uid email true r = Except.error ApiError.validationError) ∧
    (∀ (uid email : String) (r : WhatsAppAlertRequest)
        (out : String × List AuditLogEntry),
        whatsappAlert uid email true r = Except.ok out →
          10 ≤ (cleanDigits r.helperMobile).length) ∧
    (∀ (r : SmsAlertRequest) (p q : String), p ≠ "" → q ≠ "" →
        smsValidate { r with helperPhone := p } =
          smsValidate { r with helperPhone := q }) := by
  refine ⟨?_, ?_, ?_⟩
  · intro uid email r h
    have hv : whatsappValidate r = false := by
      unfold whatsappValidate
      rw [decide_eq_true h]
      simp
    simp [whatsappAlert, hv]
  · intro uid email r out h
    cases hvb : whatsappValidate r with
    | false => simp [whatsappAlert, hvb] at h
    | true => exact whatsappValidate_min10 hvb
  · intro r p q hp hq
    cases r
    simp only [smsValidate]
    rw [show (p == "") = false from beq_eq_false_iff_ne.mpr hp,
      show (q == "") = false from beq_eq_false_iff_ne.mpr hq]

/-- C9 counterexample: a successful bulk dispatch that matches zero
helpers returns `alertsGenerated = 0` and writes no audit entry at all,
not exactly one; and a successful SMS dispatch for the
separator-formatted phone number `+91 98765 43210` stores
`+91 *8765 *3210` in its audit metadata — 10 of the 12 digits still
visible, an unmasked contact address. -/
theorem dispatch_audit_claim_refuted :
    bulkValidate cexBulkReq = true ∧
    bulkTriggerAlerts "u9" "ops@example.org" true cexBulkReq
        (fun _ _ _ _ => 0) [] =
      Except.ok (0, []) ∧
    maskPhone cexSmsMask.helperPhone = "+91 *8765 *3210" ∧
    ((maskPhone cexSmsMask.helperPhone).data.filter isDigitJs).length = 10 ∧
    smsValidate cexSmsMask = true ∧
    smsAlert "u9" "ops@example.org" true cexSmsMask =
      Except.ok (smsMessage cexSmsMask,
        [{ action := "sms_alert_generated",
           incident_id := some cexSmsMask.incidentId,
           actor_id := some "u9",
           actor_email := some "ops@example.org",
           metadata :=
             [("helper_id", cexSmsMask.helperId),
              ("helper_name", cexSmsMask.helperName),
              ("helper_phone", "+91 *8765 *3210"),
              ("severity", cexSmsMask.severity),
              ("incident_type", cexSmsMask.incidentType)] }]) := by
  refine ⟨by decide, by rfl, by decide, by decide, by decide, by rfl⟩

end Aegis
